import Mathlib

/-!
Verification development for the cricket Discord bot scheduler
(`src/index.js`).  The JavaScript source is shallowly embedded below:
pure helpers become Lean functions, the per-tenant scheduler `tick`
becomes a pure state-transition function over an explicit environment
(clock, upstream fetch outcomes, channel availability), and the posts the
bot would send become an explicit event list.  Machine integers do not
occur; all times are epoch seconds as `Nat`.
-/

namespace CricketBot

/-! ### String helpers (`norm`, substring tests, lowercasing) -/

/-- whitespace as matched by the JS regex `\s` for the characters that occur here -/
def isWSChar (c : Char) : Bool := c = ' ' || c = '\t' || c = '\n' || c = '\r'

/-- JS `String.prototype.toLowerCase` restricted to the ASCII data the bot handles -/
def lowerString (s : String) : String := ⟨s.data.map Char.toLower⟩

/-- drop trailing whitespace -/
def dropTrailingWS (l : List Char) : List Char := (l.reverse.dropWhile isWSChar).reverse

/-- JS `String.prototype.trim` -/
def trimWS (l : List Char) : List Char := dropTrailingWS (l.dropWhile isWSChar)

/-- collapse runs of whitespace to single spaces, models `.replace(/\s+/g,' ')`;
the flag records whether the previous character was whitespace -/
def collapseWSAux : Bool → List Char → List Char
  | _, [] => []
  | prevWS, c :: t =>
    if isWSChar c then
      if prevWS then collapseWSAux true t else ' ' :: collapseWSAux true t
    else c :: collapseWSAux false t

/-- `norm` from index.js line 33: `(s||'').toString().trim().toLowerCase().replace(/\s+/g,' ')` -/
def norm (s : String) : String := ⟨collapseWSAux false ((trimWS s.data).map Char.toLower)⟩

/-- substring occurrence on character lists -/
def hasSubstrList : List Char → List Char → Bool
  | [], pat => pat.isEmpty
  | c :: t, pat => pat.isPrefixOf (c :: t) || hasSubstrList t pat

/-- JS `hay.includes(pat)` -/
def containsSub (hay pat : String) : Bool := hasSubstrList hay.data pat.data

/-- JS `a || b` for a possibly-absent string: absent and the empty string fall back -/
def orElseStr (a : Option String) (b : String) : String :=
  match a with
  | some s => if s = "" then b else s
  | none => b

/-- JS coercion `(x || '')` / `String(x ?? '')` of a possibly-absent string -/
def strOf (o : Option String) : String := o.getD ""

/-! ### Match data model -/

/-- one entry of a match's `teamInfo` array -/
structure TeamInfo where
  name : Option String
  shortname : Option String
deriving DecidableEq, Repr

/-- a raw upstream match record; fields may be absent, `matchStarted` is kept
as its JS stringification `String(m.matchStarted ?? '')` -/
structure Match where
  id : Option String
  unique_id : Option String
  matchId : Option String
  name : Option String
  series : Option String
  matchType : Option String
  status : Option String
  dateTimeGMT : Option String
  matchStarted : String
  teamInfo : List TeamInfo
deriving DecidableEq, Repr

/-- `matchIdOf` line 130: `String(m.id ?? m.unique_id ?? m.matchId ?? m.name ?? '')` -/
def matchIdOf (m : Match) : String :=
  (m.id <|> m.unique_id <|> m.matchId <|> m.name).getD ""

/-- the expression `match.series || match.name` used by the heuristics -/
def seriesOrName (m : Match) : String := orElseStr m.series (strOf m.name)

/-! ### Classification heuristics (lines 286-334) -/

def FRANCHISE_MAP : List String :=
  ["indian premier league","ipl","big bash","bbl","pakistan super league","psl",
   "caribbean premier league","cpl","the hundred","bangladesh premier league","bpl",
   "lanka premier league","lpl","sa20","major league cricket","mlc","global t20",
   "gt20","super smash","t10 league","abu dhabi t10"]

def FIRST_CLASS_MAP : List String :=
  ["ranji trophy","sheffield shield","county championship","plunket shield",
   "logan cup","quaid-e-azam trophy","four-day","4-day"]

def DOMESTIC_LISTA_T20_MAP : List String :=
  ["vijay hazare trophy","syed mushtaq ali","smat","royal london one-day",
   "deodhar trophy","duleep trophy","momentum one day cup","marsh one-day cup",
   "national t20 cup","super50","one-day cup"]

def INDIAN_DOMESTIC_SERIES : List String :=
  ["ranji trophy","vijay hazare","syed mushtaq ali","smat","duleep trophy",
   "deodhar trophy","irani cup","elite group","plate"]

def STRONG_INTL : List String :=
  ["t20i","odi","test","icc","world cup","asia cup","champions trophy",
   "tri-series","tour of","international"]

def INDIAN_STATES : List String :=
  ["mumbai","delhi","karnataka","tamil nadu","bengal","saurashtra","vidarbha",
   "baroda","gujarat","maharashtra","punjab","services","railways","uttarakhand",
   "hyderabad","andhra","kerala","jharkhand","jammu","kashmir","haryana",
   "uttar pradesh","madhya pradesh","assam","goa","tripura","manipur","meghalaya",
   "mizoram","nagaland","sikkim","chhattisgarh","himachal","rajasthan",
   "pondicherry","chandigarh","odisha","orissa"]

/-- `matchTeamNames` line 332: normalized team names and shortnames joined by spaces -/
def matchTeamNames (m : Match) : String :=
  String.intercalate " "
    (((m.teamInfo.map (fun t => [norm (strOf t.name), norm (strOf t.shortname)])).flatten).filter
      (fun s => s ≠ ""))

/-- `isIndianDomestic` lines 291-298 -/
def isIndianDomestic (m : Match) : Bool :=
  let series := norm (seriesOrName m)
  if INDIAN_DOMESTIC_SERIES.any (fun k => containsSub series k) then true
  else INDIAN_STATES.any (fun s => containsSub (matchTeamNames m) s)

/-- the regional-domestic first-class signal inside `guessCategory` line 303 -/
def indianFirstClassSignal (m : Match) : Bool :=
  containsSub (norm (seriesOrName m)) "ranji"
  || containsSub (norm (seriesOrName m)) "elite group"
  || containsSub (norm (seriesOrName m)) "plate"
  || containsSub (norm (strOf m.matchType)) "first class"
  || containsSub (norm (strOf m.matchType)) "four-day"
  || containsSub (norm (strOf m.matchType)) "4-day"

/-- `guessCategory` lines 299-311 (the spec's `classifyCategory`) -/
def guessCategory (m : Match) : String :=
  if isIndianDomestic m then
    if indianFirstClassSignal m then "first-class" else "domestic"
  else if FRANCHISE_MAP.any (fun k => containsSub (norm (seriesOrName m)) k) then "franchise"
  else if containsSub (norm (seriesOrName m)) "first class"
      || FIRST_CLASS_MAP.any (fun k => containsSub (norm (seriesOrName m)) k)
      || containsSub (norm (strOf m.matchType)) "first class"
      || containsSub (norm (strOf m.matchType)) "four-day"
      || containsSub (norm (strOf m.matchType)) "4-day" then "first-class"
  else if containsSub (norm (seriesOrName m)) "list a"
      || DOMESTIC_LISTA_T20_MAP.any (fun k => containsSub (norm (seriesOrName m)) k)
      || containsSub (norm (strOf m.matchType)) "list a"
      || (containsSub (norm (strOf m.matchType)) "t20"
          && !containsSub (norm (strOf m.matchType)) "t20i") then "domestic"
  else if STRONG_INTL.any (fun k => containsSub (norm (seriesOrName m)) k)
      || containsSub (norm (strOf m.matchType)) "t20i"
      || containsSub (norm (strOf m.matchType)) "odi"
      || containsSub (norm (strOf m.matchType)) "test" then "international"
  else "domestic"

def isWordChar (c : Char) : Bool := c.isAlphanum || c = '_'

/-- a JS `\b` word boundary holds at this suffix position -/
def boundaryAt : List Char → Bool
  | [] => true
  | c :: _ => !(isWordChar c)

/-- the shortname regex of `guessGender` line 318: a `-w` fragment or a
` women` fragment followed by a word boundary, anywhere in the text -/
def womenShortTest : List Char → Bool
  | [] => false
  | l@(_ :: t) =>
    (match l with
     | '-' :: 'w' :: rest => boundaryAt rest
     | ' ' :: 'w' :: 'o' :: 'm' :: 'e' :: 'n' :: rest => boundaryAt rest
     | _ => false) || womenShortTest t

/-- `guessGender` lines 312-320 (the spec's `classifyGender`) -/
def guessGender (m : Match) : String :=
  if containsSub (norm (seriesOrName m)) "women"
      || containsSub (norm (seriesOrName m)) "womens" then "women"
  else if containsSub (matchTeamNames m) " women" then "women"
  else if (m.teamInfo.map (fun t => norm (strOf t.shortname))).any
      (fun sn => womenShortTest sn.data) then "women"
  else "men"

/-- alternatives of the live-status regex in `relevantLive` line 324 -/
def LIVE_WORDS : List String :=
  ["live","day","inning","session","break","opt to bat","opt to bowl"]

/-- alternatives of `FINISHED_RE` line 321 -/
def FINISHED_WORDS : List String :=
  ["stump","stumps","abandon","no result","completed","won by","finished"]

/-- the live-status regex test (applied by the source to already-normalized text) -/
def liveStatusTest (s : String) : Bool := LIVE_WORDS.any (fun w => containsSub s w)

/-- `FINISHED_RE.test` with its case-insensitive flag -/
def finishedTest (s : String) : Bool :=
  FINISHED_WORDS.any (fun w => containsSub (lowerString s) w)

/-- `relevantLive` lines 322-328 (the spec's `isLive`) -/
def relevantLive (m : Match) : Bool :=
  liveStatusTest (norm (strOf m.status))
  || ((lowerString m.matchStarted == "true") && !finishedTest (norm (strOf m.status)))

/-- `isFinishedOrStumps` line 337 (the spec's `isFinished`) -/
def isFinishedOrStumps (m : Match) : Bool := finishedTest (strOf m.status)

/-- models `new Date(s).toISOString().slice(0,10)` for the ISO-format GMT
timestamps the upstream supplies: the leading `YYYY-MM-DD` when present,
`none` when the text cannot parse as a date (the JS callers catch the
resulting exception) -/
def isoDateOf (s : String) : Option String :=
  match s.data with
  | y1 :: y2 :: y3 :: y4 :: '-' :: m1 :: m2 :: '-' :: d1 :: d2 :: _ =>
    if y1.isDigit && y2.isDigit && y3.isDigit && y4.isDigit
        && m1.isDigit && m2.isDigit && d1.isDigit && d2.isDigit
    then some ⟨[y1, y2, y3, y4, '-', m1, m2, '-', d1, d2]⟩ else none
  | _ => none

/-- `isTodayOrLive` line 331; `today` stands for `todayISO()` -/
def isTodayOrLive (today : String) (m : Match) : Bool :=
  (match m.dateTimeGMT with
   | some dtg => isoDateOf dtg == some today
   | none => false)
  || relevantLive m

/-! ### Filter evaluation (lines 329-333) -/

/-- `genderAllowed` line 329; the argument mirrors `(genders||['men','women'])` -/
def genderAllowed (m : Match) (genders : Option (List String)) : Bool :=
  (genders.getD ["men","women"]).contains (guessGender m)

/-- `categoryAllowed` line 330; note the absent set falls back to `[]`, not to all -/
def categoryAllowed (m : Match) (allowed : Option (List String)) : Bool :=
  (allowed.getD []).contains (guessCategory m)

/-- `teamAllowed` line 333 -/
def teamAllowed (m : Match) (teamFilters : List String) : Bool :=
  if teamFilters.isEmpty then true
  else teamFilters.any (fun tok => containsSub (matchTeamNames m) (norm tok))

/-! ### Upstream fetch layer (lines 266-283, 336-341, 397-400) -/

/-- outcome of one upstream fetch: the failure modes `fetchJSON` turns into a
thrown error, or a parsed success value (pagination already followed) -/
inductive Upstream (α : Type) where
  | networkError
  | httpError (code : Nat)
  | parseError
  | ok (val : α)
deriving DecidableEq

def Upstream.isFailure {α : Type} : Upstream α → Bool
  | .ok _ => false
  | _ => true

/-- `fetchJSON` line 266: throws on network failure, non-2xx status, or bad JSON -/
def fetchJSON {α : Type} : Upstream α → Except String α
  | .networkError => .error "fetch failed"
  | .httpError c => .error ("HTTP " ++ toString c)
  | .parseError => .error "invalid json"
  | .ok v => .ok v

/-- payload of a scorecard response; the content is presentation-only for the core -/
structure ScorecardData where
  raw : String
deriving DecidableEq, Repr

/-- shape of the `/match_scorecard` response body -/
structure ScorecardResp where
  data : Option ScorecardData
deriving DecidableEq, Repr

/-- `fetchScorecard` lines 338-341: `const j = await fetchJSON(url); return j?.data || {}` —
fetch errors propagate to the caller -/
def fetchScorecard (u : Upstream ScorecardResp) : Except String ScorecardData :=
  (fetchJSON u).map (fun j => j.data.getD ⟨""⟩)

/-- the world a tick runs against: the clock, process configuration, fetch
outcomes for each upstream endpoint, calendar dates (`todayISO()` /
`tomorrowISO()`), the next occurrence of an HHMM time (`hhmmToNextDate`), and
channel availability (`client.channels.fetch`) -/
structure Env where
  now : Nat
  pollSeconds : Nat
  today : String
  tomorrow : String
  currentU : Upstream (List Match)
  matchesU : Upstream (List Match)
  scorecardU : String → Upstream ScorecardResp
  hhmmNext : String → Nat
  channelOk : String → Bool

/-- `getCurrentMatchesSafe` line 398: a failed fetch degrades to `[]` -/
def getCurrentMatchesSafe (env : Env) : List Match :=
  match fetchJSON env.currentU with
  | .ok l => l
  | .error _ => []

/-- the date-scoped `/v1/matches` fetch shared by `getTodayMatches` and
`getMatchesForISO` (lines 280-283): fetch everything, keep the matches whose
UTC start date equals `iso`, excluding unparseable timestamps -/
def matchesOn (env : Env) (iso : String) : Except String (List Match) :=
  (fetchJSON env.matchesU).map (fun l => l.filter (fun m =>
    match m.dateTimeGMT with
    | some dtg => isoDateOf dtg == some iso
    | none => false))

/-- `getTodayMatchesSafe` line 399 -/
def getTodayMatchesSafe (env : Env) : List Match :=
  match matchesOn env env.today with
  | .ok l => l
  | .error _ => []

/-- `getMatchesForISOSafe` line 400 -/
def getMatchesForISOSafe (env : Env) (iso : String) : List Match :=
  match matchesOn env iso with
  | .ok l => l
  | .error _ => []

/-! ### Tenant configuration (lines 43-60) and scheduler constants -/

/-- default of the `DAILY_SUMMARY_HHMM` environment variable, line 20 -/
def DAILY_SUMMARY_HHMM : String := "2100"

/-- `IDLE_BACKOFF_SECONDS` line 419 -/
def IDLE_BACKOFF_SECONDS : Nat := 1800

/-- one tenant's persisted record in `guild_cricket_config.json`; `none` on an
optional field models the key being absent; the three `next_*` fields model the
stringly-keyed bookkeeping entries `next_due_GID`, `fallback_summary_GID` and
`next_summary_GID` -/
structure Cfg where
  channel_id : Option String
  mode : String
  filters : Option (List String)
  selected_match_ids : List String
  daily_time : String
  team_filters : Option (List String)
  gender_filters : Option (List String)
  is_paused : Bool
  next_due_custom : Option Nat
  fallback_summary : Option Nat
  next_summary : Option Nat
deriving DecidableEq, Repr

/-- duplicate removal performed by `new Set(list)`, keeping first occurrences;
`seen` accumulates the keys already kept -/
def dedupAux (seen : List String) : List String → List String
  | [] => []
  | x :: t => if seen.contains x then dedupAux seen t else x :: dedupAux (x :: seen) t

/-- `new Set(cfg.selected_match_ids||[])`, line 430 -/
def selOf (cfg : Cfg) : List String := dedupAux [] cfg.selected_match_ids

/-- `cfg.mode||'daily'`, line 428 -/
def modeOf (cfg : Cfg) : String := if cfg.mode = "" then "daily" else cfg.mode

/-- `cfg.filters||['international','first-class','domestic','franchise']`, line 429 -/
def filtersOf (cfg : Cfg) : List String :=
  cfg.filters.getD ["international","first-class","domestic","franchise"]

/-- `cfg.gender_filters||['men','women']`, line 435 -/
def gendersOf (cfg : Cfg) : List String := cfg.gender_filters.getD ["men","women"]

/-- `cfg.team_filters||[]`, line 434 -/
def teamsOf (cfg : Cfg) : List String := cfg.team_filters.getD []

/-- `cfg.daily_time||DAILY_SUMMARY_HHMM`, line 431 -/
def dailyTimeOf (cfg : Cfg) : String :=
  if cfg.daily_time = "" then DAILY_SUMMARY_HHMM else cfg.daily_time

/-- JS truthiness of the `let nextRun=cfg[nrKey]; if(!nextRun)` checks -/
def truthyN : Option Nat → Bool
  | none => false
  | some n => n ≠ 0

/-! ### Posts emitted by a tick -/

/-- the channel messages a tick can send, by content kind; embed formatting is
presentation and is abstracted to the match records an embed batch carries -/
inductive Post where
  | finalScorecard (mid : String)
  | stoppedTracking (mid : String)
  | liveUpdate (mid : String)
  | noFallbackMatches
  | noDailyMatches
  | summaryBatch (ms : List Match)
  | tomorrowFixtures (ms : List Match)
deriving DecidableEq, Repr

/-- the batching loop `for(let i=0;i<matches.length;i+=8)` of lines 473 and 487:
successive slices of at most eight matches -/
def chunk8 : List Match → List (List Match)
  | [] => []
  | a1 :: a2 :: a3 :: a4 :: a5 :: a6 :: a7 :: a8 :: b :: rest =>
      [a1, a2, a3, a4, a5, a6, a7, a8] :: chunk8 (b :: rest)
  | l => [l]

/-- one step of the `byId[matchIdOf(m)]=m` insertion: JS objects keep the first
insertion position of a key and overwrite its value -/
def insertById (acc : List (String × Match)) (m : Match) : List (String × Match) :=
  if acc.any (fun p => p.1 = matchIdOf m) then
    acc.map (fun p => if p.1 = matchIdOf m then (matchIdOf m, m) else p)
  else acc ++ [(matchIdOf m, m)]

/-- the merge `for(const m of [...todays,...current]) byId[matchIdOf(m)]=m`
followed by `Object.values(byId)` (lines 470, 484); later records — the current
matches — win identity collisions -/
def mergeById (todays current : List Match) : List Match :=
  ((todays ++ current).foldl insertById []).map Prod.snd

/-- the filter of `formatTomorrowList` line 404 applied to tomorrow's fetch,
as invoked by `sendTomorrowsInternationals` lines 412-416 -/
def tomorrowInternationalList (env : Env) (cfg : Cfg) : List Match :=
  (((getMatchesForISOSafe env env.tomorrow).filter
      (fun m => guessCategory m == "international")).filter
      (fun m => genderAllowed m (some (gendersOf cfg)))).filter
      (fun m => teamAllowed m (teamsOf cfg))

/-! ### The per-tenant tick (lines 418-494) -/

/-- mutable state of the custom/live loop over current matches: the selection
set, the global `lastPostedByMatch` map (line 30), the `anyLive` flag and the
posts sent so far -/
structure LoopState where
  sel : List String
  lp : String → Option Nat
  anyLive : Bool
  posts : List Post

/-- the body of the `for(const m of matches)` loop, lines 442-460 -/
def procMatch (env : Env) (filters genders teams : List String)
    (st : LoopState) (m : Match) : LoopState :=
  if st.sel.contains (matchIdOf m) && categoryAllowed m (some filters)
      && genderAllowed m (some genders) && teamAllowed m teams then
    if finishedTest (strOf m.status) then
      { st with
        sel := st.sel.filter (fun x => x ≠ matchIdOf m),
        posts := st.posts
          ++ (match fetchScorecard (env.scorecardU (matchIdOf m)) with
              | .ok _ => [Post.finalScorecard (matchIdOf m)]
              | .error _ => [])
          ++ [Post.stoppedTracking (matchIdOf m)] }
    else if relevantLive m then
      if env.pollSeconds - 5 ≤ env.now - ((st.lp (matchIdOf m)).getD 0) then
        { st with anyLive := true,
                  posts := st.posts ++ [Post.liveUpdate (matchIdOf m)],
                  lp := fun k => if k = matchIdOf m then some env.now else st.lp k }
      else { st with anyLive := true }
    else st
  else st

/-- guard of the custom/live branch, line 437: `mode==='custom' && sel.size>0` -/
def branchAGuard (cfg : Cfg) : Bool := modeOf cfg == "custom" && !(selOf cfg).isEmpty

/-- guard of the custom fallback-summary branch, line 465, on the tick-start
configuration: `mode==='custom' && sel.size===0` -/
def branchBGuard (cfg : Cfg) : Bool := modeOf cfg == "custom" && (selOf cfg).isEmpty

/-- guard of the daily branch, line 479: `mode==='daily'` -/
def branchCGuard (cfg : Cfg) : Bool := modeOf cfg == "daily"

/-- the custom/live branch, lines 437-463: when due, walk the current matches,
then schedule the next poll (`POLL_SECONDS` if any tracked match is live,
`IDLE_BACKOFF_SECONDS` otherwise) -/
def runBranchA (env : Env) (cfg0 : Cfg) (lp0 : String → Option Nat) : LoopState × Cfg :=
  if branchAGuard cfg0 then
    if cfg0.next_due_custom.getD 0 ≤ env.now then
      let stA := (getCurrentMatchesSafe env).foldl
        (procMatch env (filtersOf cfg0) (gendersOf cfg0) (teamsOf cfg0))
        ⟨selOf cfg0, lp0, false, []⟩
      (stA, { cfg0 with
                selected_match_ids := stA.sel,
                next_due_custom := some (env.now +
                  (if stA.anyLive then env.pollSeconds else IDLE_BACKOFF_SECONDS)) })
    else (⟨selOf cfg0, lp0, false, []⟩, cfg0)
  else (⟨selOf cfg0, lp0, false, []⟩, cfg0)

/-- the restriction applied by the fallback-summary branch, line 471: category
is international, or domestic/first-class and regionally Indian-domestic, and
the match is scheduled today or live and passes the gender and team filters —
the tenant's own category filters are not consulted -/
def branchBPred (env : Env) (cfg : Cfg) (m : Match) : Bool :=
  (guessCategory m == "international"
    || (guessCategory m == "domestic" && isIndianDomestic m)
    || (guessCategory m == "first-class" && isIndianDomestic m))
  && isTodayOrLive env.today m
  && genderAllowed m (some (gendersOf cfg))
  && teamAllowed m (teamsOf cfg)

/-- the merged-and-filtered match list of the fallback-summary branch, lines 469-471 -/
def fallbackMatches (env : Env) (cfg0 : Cfg) : List Match :=
  (mergeById (getTodayMatchesSafe env) (getCurrentMatchesSafe env)).filter
    (branchBPred env cfg0)

/-- the custom fallback-summary branch, lines 465-477; `selAfterA` is the
selection set as branch A left it (the same mutable `sel` object), `cfgA` the
tenant record as branch A left it -/
def runBranchB (env : Env) (cfg0 : Cfg) (selAfterA : List String) (cfgA : Cfg) :
    Cfg × List Post :=
  if modeOf cfg0 == "custom" && selAfterA.isEmpty then
    if !truthyN cfgA.fallback_summary then
      ({ cfgA with fallback_summary := some (env.hhmmNext (dailyTimeOf cfg0)) }, [])
    else if cfgA.fallback_summary.getD 0 ≤ env.now then
      ({ cfgA with fallback_summary := some (cfgA.fallback_summary.getD 0 + 86400) },
       (if (fallbackMatches env cfg0).isEmpty then [Post.noFallbackMatches]
        else (chunk8 (fallbackMatches env cfg0)).map Post.summaryBatch)
       ++ [Post.tomorrowFixtures (tomorrowInternationalList env cfg0)])
    else (cfgA, [])
  else (cfgA, [])

/-- the plain filter of the daily branch, line 485 -/
def dailySummaryPred (env : Env) (cfg : Cfg) (m : Match) : Bool :=
  categoryAllowed m (some (filtersOf cfg))
  && isTodayOrLive env.today m
  && genderAllowed m (some (gendersOf cfg))
  && teamAllowed m (teamsOf cfg)

/-- the merged-and-filtered match list of the daily branch, lines 483-485 -/
def dailyMatches (env : Env) (cfg0 : Cfg) : List Match :=
  (mergeById (getTodayMatchesSafe env) (getCurrentMatchesSafe env)).filter
    (dailySummaryPred env cfg0)

/-- the daily branch, lines 479-491 -/
def runBranchC (env : Env) (cfg0 : Cfg) (cfgB : Cfg) : Cfg × List Post :=
  if modeOf cfg0 == "daily" then
    if !truthyN cfgB.next_summary then
      ({ cfgB with next_summary := some (env.hhmmNext (dailyTimeOf cfg0)) }, [])
    else if cfgB.next_summary.getD 0 ≤ env.now then
      ({ cfgB with next_summary := some (cfgB.next_summary.getD 0 + 86400) },
       (if (dailyMatches env cfg0).isEmpty then [Post.noDailyMatches]
        else (chunk8 (dailyMatches env cfg0)).map Post.summaryBatch)
       ++ [Post.tomorrowFixtures (tomorrowInternationalList env cfg0)])
    else (cfgB, [])
  else (cfgB, [])

/-- result of one tenant's tick: the tenant record as persisted by `saveData`,
the in-memory `lastPostedByMatch` map, and the posts sent -/
structure TickResult where
  cfg : Cfg
  lp : String → Option Nat
  posts : List Post

/-- one tenant's slice of `tick()`, lines 420-493: skip paused tenants and
tenants without a reachable channel, then run the three mode branches in
sequence — branch B observes the selection set as mutated by branch A -/
def tick (env : Env) (cfg0 : Cfg) (lp0 : String → Option Nat) : TickResult :=
  if cfg0.is_paused then ⟨cfg0, lp0, []⟩
  else if cfg0.channel_id.getD "" = "" then ⟨cfg0, lp0, []⟩
  else if !env.channelOk (cfg0.channel_id.getD "") then ⟨cfg0, lp0, []⟩
  else
    let pA := runBranchA env cfg0 lp0
    let pB := runBranchB env cfg0 pA.1.sel pA.2
    let pC := runBranchC env cfg0 pB.1
    ⟨pC.1, pA.1.lp, pA.1.posts ++ pB.2 ++ pC.2⟩

/-- result of a whole tick over every tenant -/
structure MultiResult where
  cfgs : List Cfg
  lp : String → Option Nat
  posts : List Post

/-- the `for(const [gId,cfg] of Object.entries(data))` loop of `tick()`:
tenants are processed in order against the single shared
`lastPostedByMatch` map -/
def tickAll (env : Env) (cfgs : List Cfg) (lp0 : String → Option Nat) : MultiResult :=
  cfgs.foldl (fun acc cfg =>
    let r := tick env cfg acc.lp
    ⟨acc.cfgs ++ [r.cfg], r.lp, acc.posts ++ r.posts⟩) ⟨[], lp0, []⟩

/-- the match records carried by the summary-embed batches among some posts -/
def summaryContents (posts : List Post) : List Match :=
  (posts.filterMap (fun p => match p with
    | Post.summaryBatch ms => some ms
    | _ => none)).flatten

/-! ### The `/cricket-list` pipeline (lines 692-696) -/

/-- the filter chain of the `cricket-list` command handler; note it passes
`cfg.filters||[]` to `categoryAllowed`, so an absent category-filter set
reaches the check as the empty set -/
def cricketListMatches (cfg : Cfg) (current : List Match) : List Match :=
  ((current.filter (fun m => categoryAllowed m (some (cfg.filters.getD [])))).filter
      (fun m => genderAllowed m (some (gendersOf cfg)))).filter
      (fun m => teamAllowed m (teamsOf cfg))

/-! ### Status vocabulary and post shape helpers used by the claims -/

/-- the finished vocabulary as the specification lists it -/
def finishedVocab : List String :=
  ["stumps","abandoned","no result","completed","won by","finished"]

/-- posts only the custom/live branch (branch A) emits -/
def isCustomLivePost : Post → Bool
  | Post.finalScorecard _ => true
  | Post.stoppedTracking _ => true
  | Post.liveUpdate _ => true
  | _ => false

/-- posts only the two summary branches (branches B and C) emit -/
def isSummaryStylePost : Post → Bool
  | Post.noFallbackMatches => true
  | Post.noDailyMatches => true
  | Post.summaryBatch _ => true
  | Post.tomorrowFixtures _ => true
  | _ => false

/-! ### Concrete fixtures for witnesses and counterexamples -/

/-- an empty `lastPostedByMatch` map, the state right after process start -/
def lpNone : String → Option Nat := fun _ => none

/-- a tied international match as the upstream reports it: the status text
"Match Tied" matches neither the live vocabulary nor `FINISHED_RE` -/
def sampleTied : Match :=
  ⟨some "m1", none, none, some "India vs Australia, Final", some "Australia tour of India",
   some "T20I", some "Match Tied", some "2026-10-12T13:00:00", "true",
   [⟨some "India", some "IND"⟩, ⟨some "Australia", some "AUS"⟩]⟩

/-- a live international match -/
def sampleLive : Match :=
  ⟨some "m2", none, none, some "India vs Australia, 2nd T20I", some "Australia tour of India",
   some "T20I", some "Live: over 12", some "2026-10-12T13:00:00", "true",
   [⟨some "India", some "IND"⟩, ⟨some "Australia", some "AUS"⟩]⟩

/-- a finished Indian first-class match -/
def sampleRanji : Match :=
  ⟨some "r1", none, none, some "Mumbai vs Delhi", some "Ranji Trophy 2025-26",
   some "Test", some "Mumbai won by 5 wickets", some "2026-10-12T04:00:00", "true",
   [⟨some "Mumbai", some "MUM"⟩, ⟨some "Delhi", some "DEL"⟩]⟩

/-- a match whose status is drawn literally from the finished vocabulary -/
def sampleStumps : Match :=
  ⟨some "s1", none, none, some "Mumbai vs Delhi", some "Ranji Trophy 2025-26",
   some "Test", some "stumps", some "2026-10-12T04:00:00", "true",
   [⟨some "Mumbai", some "MUM"⟩, ⟨some "Delhi", some "DEL"⟩]⟩

/-- an environment whose current-matches fetch reports the tied match -/
def envTied : Env :=
  ⟨1000000, 600, "2026-10-12", "2026-10-13", Upstream.ok [sampleTied], Upstream.ok [],
   fun _ => Upstream.ok ⟨some ⟨"scorecard"⟩⟩, fun _ => 2000000, fun _ => true⟩

/-- a tenant in custom mode tracking the tied match, due now -/
def cfgTied : Cfg :=
  ⟨some "ch1", "custom", none, ["m1"], "2100", none, none, false, none, none, none⟩

/-- an environment whose current-matches fetch reports the finished Ranji match -/
def envRanjiDone : Env :=
  ⟨1000000, 600, "2026-10-12", "2026-10-13", Upstream.ok [sampleRanji], Upstream.ok [],
   fun _ => Upstream.ok ⟨some ⟨"scorecard"⟩⟩, fun _ => 2000000, fun _ => true⟩

/-- a tenant in custom mode tracking the Ranji match, its custom branch due now
and a stale fallback-summary timer from an earlier idle period -/
def cfgRanjiStale : Cfg :=
  ⟨some "ch1", "custom", none, ["r1"], "2100", none, none, false, none, some 500, none⟩

/-- a tenant in custom mode tracking the Ranji match, no fallback timer set -/
def cfgRanjiTracking : Cfg :=
  ⟨some "ch1", "custom", none, ["r1"], "2100", none, none, false, none, none, none⟩

/-- a tenant whose persisted category-filter set is absent -/
def cfgNoFilters : Cfg :=
  ⟨some "ch1", "daily", none, [], "2100", none, none, false, none, none, none⟩

/-- a tenant in daily mode with a due daily-summary timestamp -/
def cfgDailyDue : Cfg :=
  ⟨some "ch1", "daily", none, [], "2100", none, none, false, none, none, some 900000⟩

/-- a tenant in custom mode, nothing selected, fallback-summary due -/
def cfgFallbackDue : Cfg :=
  ⟨some "ch1", "custom", none, [], "2100", none, none, false, none, some 900000, none⟩

/-- an environment for the live-throttle scenarios: the live match is current,
and the clock sits exactly at the end of the throttle window opened at 100 -/
def envThrottle : Env :=
  ⟨695, 600, "2026-10-12", "2026-10-13", Upstream.ok [sampleLive], Upstream.ok [],
   fun _ => Upstream.ok ⟨some ⟨"scorecard"⟩⟩, fun _ => 2000000, fun _ => true⟩

/-- a throttle map recording a live post for `m2` at instant 100 -/
def lpAt100 : String → Option Nat := fun k => if k = "m2" then some 100 else none

/-- a tenant in custom mode tracking the live match, due now -/
def cfgLiveTracking : Cfg :=
  ⟨some "ch1", "custom", none, ["m2"], "2100", none, none, false, none, none, none⟩

/-- a second tenant, on another channel, tracking the same live match -/
def cfgLiveTracking2 : Cfg :=
  ⟨some "ch2", "custom", none, ["m2"], "2100", none, none, false, none, none, none⟩

/-- an environment whose scheduled-matches fetch carries the Ranji match and
whose current fetch carries the live international, summaries due at 1000000 -/
def envSummary : Env :=
  ⟨1000000, 600, "2026-10-12", "2026-10-13", Upstream.ok [sampleLive],
   Upstream.ok [sampleRanji], fun _ => Upstream.ok ⟨some ⟨"scorecard"⟩⟩,
   fun _ => 2000000, fun _ => true⟩

/-- an environment in which every upstream fetch fails -/
def envFail : Env :=
  ⟨1000000, 600, "2026-10-12", "2026-10-13", Upstream.networkError,
   Upstream.httpError 500, fun _ => Upstream.parseError, fun _ => 2000000, fun _ => true⟩

/-! ## Lemmas -/

/-- a fold preserves any invariant its step preserves -/
theorem foldl_inv {α β : Type} {P : β → Prop} (f : β → α → β)
    (hstep : ∀ st a, P st → P (f st a)) :
    ∀ (l : List α) (st : β), P st → P (l.foldl f st)
  | [], _, h => h
  | a :: l, st, h => foldl_inv f hstep l (f st a) (hstep st a h)

/-- a fold preserves any invariant its step preserves on the list's members -/
theorem foldl_inv_mem {α β : Type} {P : β → Prop} (f : β → α → β) :
    ∀ (l : List α) (st : β), P st → (∀ st a, a ∈ l → P st → P (f st a)) → P (l.foldl f st)
  | [], _, h, _ => h
  | a :: l, st, h, hstep =>
      foldl_inv_mem f l (f st a) (hstep st a (List.mem_cons_self a l) h)
        (fun st' a' ha' h' => hstep st' a' (List.mem_cons_of_mem a ha') h')

/-- flattening the embed batches recovers the full match list: the slice loop
drops and duplicates nothing -/
theorem chunk8_flatten : ∀ l : List Match, (chunk8 l).flatten = l := by
  intro l
  induction l using chunk8.induct with
  | case1 => rfl
  | case2 a1 a2 a3 a4 a5 a6 a7 a8 b rest ih =>
      rw [chunk8]
      simp only [List.flatten_cons, ih]
      rfl
  | case3 l h1 h2 =>
      rw [chunk8.eq_def]
      split
      · rfl
      · exact absurd rfl (by intro h; exact h2 _ _ _ _ _ _ _ _ _ _ h)
      · simp

/-- the loop body changes the throttle map only at the processed match's identity -/
theorem procMatch_lp_of_ne (env : Env) (f g t : List String) (st : LoopState) (m : Match)
    (k : String) (hk : k ≠ matchIdOf m) :
    (procMatch env f g t st m).lp k = st.lp k := by
  unfold procMatch
  split
  · split
    · rfl
    · split
      · split
        · simp [hk]
        · rfl
      · rfl
  · rfl

/-- the loop body removes only the processed match's identity from the selection -/
theorem procMatch_sel_mem (env : Env) (f g t : List String) (st : LoopState) (m : Match)
    (k : String) (hk : k ∈ st.sel) (hne : k ≠ matchIdOf m) :
    k ∈ (procMatch env f g t st m).sel := by
  unfold procMatch
  split
  · split
    · exact List.mem_filter.mpr ⟨hk, by simpa using hne⟩
    · split
      · split
        · exact hk
        · exact hk
      · exact hk
  · exact hk

/-- the loop body never removes an already-sent post -/
theorem procMatch_posts_mono (env : Env) (f g t : List String) (st : LoopState) (m : Match)
    (p : Post) (hp : p ∈ st.posts) : p ∈ (procMatch env f g t st m).posts := by
  unfold procMatch
  split
  · split
    · exact List.mem_append_left _ (List.mem_append_left _ hp)
    · split
      · split
        · exact List.mem_append_left _ hp
        · exact hp
      · exact hp
  · exact hp

/-- while a match's throttle window is open, the loop body neither posts a live
update for it nor touches its throttle entry -/
theorem procMatch_blocked (env : Env) (f g t : List String) (st : LoopState) (m : Match)
    (mid : String) (t0 : Nat)
    (hpoll : 5 < env.pollSeconds) (hwin : env.now < t0 + (env.pollSeconds - 5))
    (h1 : st.lp mid = some t0) (h2 : Post.liveUpdate mid ∉ st.posts) :
    (procMatch env f g t st m).lp mid = some t0
    ∧ Post.liveUpdate mid ∉ (procMatch env f g t st m).posts := by
  unfold procMatch
  split
  · split
    · refine ⟨h1, ?_⟩
      simp only [List.mem_append, List.mem_singleton]
      rintro ((h | h) | h)
      · exact h2 h
      · revert h
        cases fetchScorecard (env.scorecardU (matchIdOf m)) <;> simp
      · exact absurd h (by simp)
    · split
      · split
        next hguard =>
          by_cases hmid : matchIdOf m = mid
          · exfalso
            rw [hmid, h1] at hguard
            simp only [Option.getD_some] at hguard
            omega
          · refine ⟨?_, ?_⟩
            · simp only []
              rw [if_neg (fun h => hmid h.symm)]
              exact h1
            · simp only [List.mem_append, List.mem_singleton]
              rintro (h | h)
              · exact h2 h
              · exact hmid (by injection h with h; exact h.symm)
        · exact ⟨h1, h2⟩
      · exact ⟨h1, h2⟩
  · exact ⟨h1, h2⟩

/-- when a selected, filter-passing, live, unfinished match is past its
throttle window, the loop body posts a live update and stamps the throttle map -/
theorem procMatch_fires (env : Env) (f g t : List String) (st : LoopState) (m : Match)
    (hsel : st.sel.contains (matchIdOf m) = true)
    (hcat : categoryAllowed m (some f) = true)
    (hgen : genderAllowed m (some g) = true)
    (htea : teamAllowed m t = true)
    (hfin : finishedTest (strOf m.status) = false)
    (hliv : relevantLive m = true)
    (hguard : env.pollSeconds - 5 ≤ env.now - ((st.lp (matchIdOf m)).getD 0)) :
    procMatch env f g t st m =
      { st with anyLive := true,
                posts := st.posts ++ [Post.liveUpdate (matchIdOf m)],
                lp := fun k => if k = matchIdOf m then some env.now else st.lp k } := by
  unfold procMatch
  rw [hsel, hcat, hgen, htea, hfin, hliv]
  simp [hguard]

/-- the loop body keeps the per-identity live-post count at most one within a
tick: a stamped throttle entry of the current instant blocks a second post,
and a post stamps the entry; an unposted identity keeps its incoming entry -/
theorem procMatch_count (env : Env) (f g t : List String) (st : LoopState) (m : Match)
    (mid : String) (lp0 : String → Option Nat) (hpoll : 5 < env.pollSeconds)
    (h : st.posts.count (Post.liveUpdate mid) ≤ 1
      ∧ (Post.liveUpdate mid ∈ st.posts → st.lp mid = some env.now)
      ∧ (Post.liveUpdate mid ∉ st.posts → st.lp mid = lp0 mid)) :
    (procMatch env f g t st m).posts.count (Post.liveUpdate mid) ≤ 1
    ∧ (Post.liveUpdate mid ∈ (procMatch env f g t st m).posts →
        (procMatch env f g t st m).lp mid = some env.now)
    ∧ (Post.liveUpdate mid ∉ (procMatch env f g t st m).posts →
        (procMatch env f g t st m).lp mid = lp0 mid) := by
  obtain ⟨hcnt, hmem, hnmem⟩ := h
  unfold procMatch
  split
  · split
    · have hjunk : ∀ p ∈ ((match fetchScorecard (env.scorecardU (matchIdOf m)) with
          | .ok _ => [Post.finalScorecard (matchIdOf m)]
          | .error _ => []) ++ [Post.stoppedTracking (matchIdOf m)]),
          p ≠ Post.liveUpdate mid := by
        intro p hp
        rcases List.mem_append.mp hp with h' | h'
        · revert h'
          cases fetchScorecard (env.scorecardU (matchIdOf m)) with
          | error e => simp
          | ok v =>
              simp only [List.mem_singleton]
              rintro rfl
              simp
        · rw [List.mem_singleton] at h'
          subst h'
          simp
      have hz : ((match fetchScorecard (env.scorecardU (matchIdOf m)) with
          | .ok _ => [Post.finalScorecard (matchIdOf m)]
          | .error _ => []) ++ [Post.stoppedTracking (matchIdOf m)]).count
            (Post.liveUpdate mid) = 0 :=
        List.count_eq_zero.mpr (fun hc => hjunk _ hc rfl)
      have hmm : Post.liveUpdate mid ∈ (st.posts
          ++ ((match fetchScorecard (env.scorecardU (matchIdOf m)) with
              | .ok _ => [Post.finalScorecard (matchIdOf m)]
              | .error _ => []) ++ [Post.stoppedTracking (matchIdOf m)]))
          ↔ Post.liveUpdate mid ∈ st.posts := by
        constructor
        · intro hc
          rcases List.mem_append.mp hc with h' | h'
          · exact h'
          · exact absurd rfl (hjunk _ h')
        · exact List.mem_append_left _
      refine ⟨?_, ?_, ?_⟩
      · rw [show st.posts ++ (match fetchScorecard (env.scorecardU (matchIdOf m)) with
              | .ok _ => [Post.finalScorecard (matchIdOf m)]
              | .error _ => []) ++ [Post.stoppedTracking (matchIdOf m)]
            = st.posts ++ ((match fetchScorecard (env.scorecardU (matchIdOf m)) with
              | .ok _ => [Post.finalScorecard (matchIdOf m)]
              | .error _ => []) ++ [Post.stoppedTracking (matchIdOf m)]) from
            (List.append_assoc _ _ _)]
        rw [List.count_append, hz]
        simpa using hcnt
      · intro hc
        rw [List.append_assoc, hmm] at hc
        exact hmem hc
      · intro hc
        rw [List.append_assoc, hmm] at hc
        exact hnmem hc
    · split
      · split
        next hguard =>
          by_cases hmid : matchIdOf m = mid
          · subst hmid
            by_cases hin : Post.liveUpdate (matchIdOf m) ∈ st.posts
            · exfalso
              rw [hmem hin] at hguard
              simp only [Option.getD_some] at hguard
              omega
            · have hz : st.posts.count (Post.liveUpdate (matchIdOf m)) = 0 :=
                List.count_eq_zero.mpr hin
              refine ⟨?_, ?_, ?_⟩
              · rw [List.count_append, hz]
                simp
              · intro _
                simp
              · intro hc
                exact absurd (List.mem_append_right _ (List.mem_singleton.mpr rfl)) hc
          · have hne : Post.liveUpdate mid ≠ Post.liveUpdate (matchIdOf m) := by
              intro h'
              exact hmid (by injection h' with h'; exact h'.symm)
            have hz : ([Post.liveUpdate (matchIdOf m)]).count (Post.liveUpdate mid) = 0 :=
              List.count_eq_zero.mpr (by simpa using hne)
            have hmm : Post.liveUpdate mid ∈ st.posts ++ [Post.liveUpdate (matchIdOf m)]
                ↔ Post.liveUpdate mid ∈ st.posts := by
              simp [List.mem_append, hne]
            refine ⟨?_, ?_, ?_⟩
            · rw [List.count_append, hz]
              simpa using hcnt
            · intro hc
              simp only []
              rw [if_neg (fun h' => hmid h'.symm)]
              exact hmem (hmm.mp hc)
            · intro hc
              simp only []
              rw [if_neg (fun h' => hmid h'.symm)]
              exact hnmem (fun h' => hc (hmm.mpr h'))
        · exact ⟨hcnt, hmem, hnmem⟩
      · exact ⟨hcnt, hmem, hnmem⟩
  · exact ⟨hcnt, hmem, hnmem⟩

/-- a custom/live branch that is not due (or whose guard fails) changes nothing -/
theorem runBranchA_not_entered (env : Env) (cfg : Cfg) (lp0 : String → Option Nat)
    (h : branchAGuard cfg = false ∨ ¬(cfg.next_due_custom.getD 0 ≤ env.now)) :
    runBranchA env cfg lp0 = (⟨selOf cfg, lp0, false, []⟩, cfg) := by
  unfold runBranchA
  rcases h with h | h
  · rw [h]
    simp
  · split <;> simp [h]

/-- the custom/live branch posts no live update for an identity whose throttle
window is still open, and leaves its throttle entry untouched -/
theorem runBranchA_blocked (env : Env) (cfg : Cfg) (lp0 : String → Option Nat)
    (mid : String) (t0 : Nat) (hpoll : 5 < env.pollSeconds)
    (hwin : env.now < t0 + (env.pollSeconds - 5)) (hlp : lp0 mid = some t0) :
    (runBranchA env cfg lp0).1.lp mid = some t0
    ∧ Post.liveUpdate mid ∉ (runBranchA env cfg lp0).1.posts := by
  unfold runBranchA
  split
  · split
    · exact foldl_inv
        (P := fun st : LoopState => st.lp mid = some t0 ∧ Post.liveUpdate mid ∉ st.posts) _
        (fun st a h => procMatch_blocked env _ _ _ st a mid t0 hpoll hwin h.1 h.2)
        _ _ ⟨hlp, by simp⟩
    · exact ⟨hlp, by simp⟩
  · exact ⟨hlp, by simp⟩

/-- within one run of the custom/live branch, each identity receives at most one
live update; a posted identity's throttle entry is stamped with the current
instant, an unposted identity's entry is unchanged -/
theorem runBranchA_count (env : Env) (cfg : Cfg) (lp0 : String → Option Nat)
    (mid : String) (hpoll : 5 < env.pollSeconds) :
    (runBranchA env cfg lp0).1.posts.count (Post.liveUpdate mid) ≤ 1
    ∧ (Post.liveUpdate mid ∈ (runBranchA env cfg lp0).1.posts →
        (runBranchA env cfg lp0).1.lp mid = some env.now)
    ∧ (Post.liveUpdate mid ∉ (runBranchA env cfg lp0).1.posts →
        (runBranchA env cfg lp0).1.lp mid = lp0 mid) := by
  have hinit : (([] : List Post).count (Post.liveUpdate mid) ≤ 1)
      ∧ (Post.liveUpdate mid ∈ ([] : List Post) → lp0 mid = some env.now)
      ∧ (Post.liveUpdate mid ∉ ([] : List Post) → lp0 mid = lp0 mid) :=
    ⟨by simp, by simp, fun _ => rfl⟩
  unfold runBranchA
  split
  · split
    · exact foldl_inv
        (P := fun st : LoopState => st.posts.count (Post.liveUpdate mid) ≤ 1
          ∧ (Post.liveUpdate mid ∈ st.posts → st.lp mid = some env.now)
          ∧ (Post.liveUpdate mid ∉ st.posts → st.lp mid = lp0 mid)) _
        (fun st a h => procMatch_count env _ _ _ st a mid lp0 hpoll h)
        _ _ hinit
    · exact hinit
  · exact hinit

/-- when the custom/live branch is due and a tracked, filter-passing, live,
unfinished match occurs exactly once in the current matches, past its window,
the branch posts its live update and stamps its throttle entry with now -/
theorem runBranchA_fires (env : Env) (cfg : Cfg) (lp0 : String → Option Nat)
    (mid : String) (t0 : Nat) (m : Match) (pre suf : List Match)
    (hguard : branchAGuard cfg = true) (hdue : cfg.next_due_custom.getD 0 ≤ env.now)
    (hcur : getCurrentMatchesSafe env = pre ++ m :: suf)
    (hmid : matchIdOf m = mid)
    (huniq : ∀ m' : Match, m' ∈ pre ∨ m' ∈ suf → matchIdOf m' ≠ mid)
    (hsel : mid ∈ selOf cfg) (hlp : lp0 mid = some t0)
    (hwin : t0 + (env.pollSeconds - 5) ≤ env.now)
    (hcat : categoryAllowed m (some (filtersOf cfg)) = true)
    (hgen : genderAllowed m (some (gendersOf cfg)) = true)
    (htea : teamAllowed m (teamsOf cfg) = true)
    (hfin : finishedTest (strOf m.status) = false)
    (hliv : relevantLive m = true) :
    Post.liveUpdate mid ∈ (runBranchA env cfg lp0).1.posts
    ∧ (runBranchA env cfg lp0).1.lp mid = some env.now := by
  unfold runBranchA
  rw [hguard, if_pos rfl, if_pos hdue, hcur, List.foldl_append, List.foldl_cons]
  have hpre : mid ∈ (List.foldl (procMatch env (filtersOf cfg) (gendersOf cfg) (teamsOf cfg))
      ⟨selOf cfg, lp0, false, []⟩ pre).sel
      ∧ (List.foldl (procMatch env (filtersOf cfg) (gendersOf cfg) (teamsOf cfg))
      ⟨selOf cfg, lp0, false, []⟩ pre).lp mid = some t0 := by
    refine foldl_inv_mem
      (P := fun st : LoopState => mid ∈ st.sel ∧ st.lp mid = some t0) _ pre _ ⟨hsel, hlp⟩ ?_
    intro st a ha h
    refine ⟨procMatch_sel_mem env _ _ _ st a mid h.1 (Ne.symm (huniq a (Or.inl ha))), ?_⟩
    rw [procMatch_lp_of_ne env _ _ _ st a mid (Ne.symm (huniq a (Or.inl ha)))]
    exact h.2
  have hstep := procMatch_fires env (filtersOf cfg) (gendersOf cfg) (teamsOf cfg)
      (List.foldl (procMatch env (filtersOf cfg) (gendersOf cfg) (teamsOf cfg))
        ⟨selOf cfg, lp0, false, []⟩ pre) m
      (by rw [hmid]; simpa using hpre.1) hcat hgen htea hfin hliv
      (by rw [hmid, hpre.2]; simp; omega)
  rw [hstep]
  refine foldl_inv_mem
    (P := fun st : LoopState => Post.liveUpdate mid ∈ st.posts ∧ st.lp mid = some env.now)
    _ suf _ ⟨?_, ?_⟩ ?_
  · rw [hmid]
    exact List.mem_append_right _ (List.mem_singleton.mpr rfl)
  · simp only []
    rw [if_pos hmid.symm]
  · intro st a ha h
    refine ⟨procMatch_posts_mono env _ _ _ st a _ h.1, ?_⟩
    rw [procMatch_lp_of_ne env _ _ _ st a mid (Ne.symm (huniq a (Or.inr ha)))]
    exact h.2

/-- the fallback-summary branch never posts custom/live-style posts -/
theorem not_live_runBranchB (env : Env) (cfg0 : Cfg) (sel : List String) (cfgA : Cfg)
    (p : Post) (hp : isCustomLivePost p = true) : p ∉ (runBranchB env cfg0 sel cfgA).2 := by
  unfold runBranchB
  split
  · split
    · simp
    · split
      · intro hmem
        rcases List.mem_append.mp hmem with h | h
        · revert h
          split
          · intro h
            rw [List.mem_singleton] at h
            subst h
            simp [isCustomLivePost] at hp
          · intro h
            rcases List.mem_map.mp h with ⟨ms, _, hm⟩
            subst hm
            simp [isCustomLivePost] at hp
        · rw [List.mem_singleton] at h
          subst h
          simp [isCustomLivePost] at hp
      · simp
  · simp

/-- the daily branch never posts custom/live-style posts -/
theorem not_live_runBranchC (env : Env) (cfg0 : Cfg) (cfgB : Cfg)
    (p : Post) (hp : isCustomLivePost p = true) : p ∉ (runBranchC env cfg0 cfgB).2 := by
  unfold runBranchC
  split
  · split
    · simp
    · split
      · intro hmem
        rcases List.mem_append.mp hmem with h | h
        · revert h
          split
          · intro h
            rw [List.mem_singleton] at h
            subst h
            simp [isCustomLivePost] at hp
          · intro h
            rcases List.mem_map.mp h with ⟨ms, _, hm⟩
            subst hm
            simp [isCustomLivePost] at hp
        · rw [List.mem_singleton] at h
          subst h
          simp [isCustomLivePost] at hp
      · simp
  · simp

/-- the custom/live branch writes only the selection set and its own due
timestamp on the tenant record -/
theorem runBranchA_cfg_preserves (env : Env) (cfg : Cfg) (lp0 : String → Option Nat) :
    (runBranchA env cfg lp0).2.mode = cfg.mode
    ∧ (runBranchA env cfg lp0).2.channel_id = cfg.channel_id
    ∧ (runBranchA env cfg lp0).2.is_paused = cfg.is_paused
    ∧ (runBranchA env cfg lp0).2.daily_time = cfg.daily_time
    ∧ (runBranchA env cfg lp0).2.fallback_summary = cfg.fallback_summary
    ∧ (runBranchA env cfg lp0).2.next_summary = cfg.next_summary
    ∧ (runBranchA env cfg lp0).2.filters = cfg.filters
    ∧ (runBranchA env cfg lp0).2.gender_filters = cfg.gender_filters
    ∧ (runBranchA env cfg lp0).2.team_filters = cfg.team_filters := by
  unfold runBranchA
  split
  · split
    · exact ⟨rfl, rfl, rfl, rfl, rfl, rfl, rfl, rfl, rfl⟩
    · exact ⟨rfl, rfl, rfl, rfl, rfl, rfl, rfl, rfl, rfl⟩
  · exact ⟨rfl, rfl, rfl, rfl, rfl, rfl, rfl, rfl, rfl⟩

/-- the fallback-summary branch writes only its own due timestamp -/
theorem runBranchB_cfg_preserves (env : Env) (cfg0 : Cfg) (sel : List String) (cfgA : Cfg) :
    (runBranchB env cfg0 sel cfgA).1.mode = cfgA.mode
    ∧ (runBranchB env cfg0 sel cfgA).1.channel_id = cfgA.channel_id
    ∧ (runBranchB env cfg0 sel cfgA).1.is_paused = cfgA.is_paused
    ∧ (runBranchB env cfg0 sel cfgA).1.daily_time = cfgA.daily_time
    ∧ (runBranchB env cfg0 sel cfgA).1.selected_match_ids = cfgA.selected_match_ids
    ∧ (runBranchB env cfg0 sel cfgA).1.next_summary = cfgA.next_summary
    ∧ (runBranchB env cfg0 sel cfgA).1.next_due_custom = cfgA.next_due_custom := by
  unfold runBranchB
  split
  · split
    · exact ⟨rfl, rfl, rfl, rfl, rfl, rfl, rfl⟩
    · split
      · exact ⟨rfl, rfl, rfl, rfl, rfl, rfl, rfl⟩
      · exact ⟨rfl, rfl, rfl, rfl, rfl, rfl, rfl⟩
  · exact ⟨rfl, rfl, rfl, rfl, rfl, rfl, rfl⟩

/-- the daily branch writes only its own due timestamp -/
theorem runBranchC_cfg_preserves (env : Env) (cfg0 : Cfg) (cfgB : Cfg) :
    (runBranchC env cfg0 cfgB).1.mode = cfgB.mode
    ∧ (runBranchC env cfg0 cfgB).1.channel_id = cfgB.channel_id
    ∧ (runBranchC env cfg0 cfgB).1.is_paused = cfgB.is_paused
    ∧ (runBranchC env cfg0 cfgB).1.daily_time = cfgB.daily_time
    ∧ (runBranchC env cfg0 cfgB).1.selected_match_ids = cfgB.selected_match_ids
    ∧ (runBranchC env cfg0 cfgB).1.fallback_summary = cfgB.fallback_summary := by
  unfold runBranchC
  split
  · split
    · exact ⟨rfl, rfl, rfl, rfl, rfl, rfl⟩
    · split
      · exact ⟨rfl, rfl, rfl, rfl, rfl, rfl⟩
      · exact ⟨rfl, rfl, rfl, rfl, rfl, rfl⟩
  · exact ⟨rfl, rfl, rfl, rfl, rfl, rfl⟩

/-- a paused or channel-less tenant's tick does nothing -/
theorem tick_skipped (env : Env) (cfg : Cfg) (lp : String → Option Nat)
    (h : cfg.is_paused = true ∨ cfg.channel_id.getD "" = ""
      ∨ env.channelOk (cfg.channel_id.getD "") = false) :
    tick env cfg lp = ⟨cfg, lp, []⟩ := by
  unfold tick
  rcases h with h | h | h <;> simp [h]

/-- a tick posts no live update for an identity whose throttle window is open,
and leaves its throttle entry untouched -/
theorem tick_blocked (env : Env) (cfg : Cfg) (lp : String → Option Nat)
    (mid : String) (t0 : Nat) (hpoll : 5 < env.pollSeconds)
    (hlp : lp mid = some t0) (hwin : env.now < t0 + (env.pollSeconds - 5)) :
    Post.liveUpdate mid ∉ (tick env cfg lp).posts ∧ (tick env cfg lp).lp mid = some t0 := by
  unfold tick
  split
  · exact ⟨by simp, hlp⟩
  · split
    · exact ⟨by simp, hlp⟩
    · split
      · exact ⟨by simp, hlp⟩
      · refine ⟨?_, (runBranchA_blocked env cfg lp mid t0 hpoll hwin hlp).1⟩
        intro hmem
        rcases List.mem_append.mp hmem with h | h
        · rcases List.mem_append.mp h with h1 | h1
          · exact (runBranchA_blocked env cfg lp mid t0 hpoll hwin hlp).2 h1
          · exact not_live_runBranchB env cfg _ _ (Post.liveUpdate mid) rfl h1
        · exact not_live_runBranchC env cfg _ (Post.liveUpdate mid) rfl h

/-- within one tick an identity gets at most one live update; posting stamps
its throttle entry with the current instant, not posting leaves it unchanged -/
theorem tick_count (env : Env) (cfg : Cfg) (lp : String → Option Nat)
    (mid : String) (hpoll : 5 < env.pollSeconds) :
    (tick env cfg lp).posts.count (Post.liveUpdate mid) ≤ 1
    ∧ (Post.liveUpdate mid ∈ (tick env cfg lp).posts →
        (tick env cfg lp).lp mid = some env.now)
    ∧ (Post.liveUpdate mid ∉ (tick env cfg lp).posts →
        (tick env cfg lp).lp mid = lp mid) := by
  unfold tick
  split
  · exact ⟨by simp, by simp, fun _ => rfl⟩
  · split
    · exact ⟨by simp, by simp, fun _ => rfl⟩
    · split
      · exact ⟨by simp, by simp, fun _ => rfl⟩
      · have hA := runBranchA_count env cfg lp mid hpoll
        have hzB : ((runBranchB env cfg
            (runBranchA env cfg lp).1.sel (runBranchA env cfg lp).2).2).count
            (Post.liveUpdate mid) = 0 :=
          List.count_eq_zero.mpr (not_live_runBranchB env cfg _ _ (Post.liveUpdate mid) rfl)
        have hzC : ((runBranchC env cfg (runBranchB env cfg
            (runBranchA env cfg lp).1.sel (runBranchA env cfg lp).2).1).2).count
            (Post.liveUpdate mid) = 0 :=
          List.count_eq_zero.mpr (not_live_runBranchC env cfg _ (Post.liveUpdate mid) rfl)
        refine ⟨?_, ?_, ?_⟩
        · rw [List.count_append, List.count_append, hzB, hzC]
          simpa using hA.1
        · intro hmem
          rcases List.mem_append.mp hmem with h | h
          · rcases List.mem_append.mp h with h1 | h1
            · exact hA.2.1 h1
            · exact absurd h1 (not_live_runBranchB env cfg _ _ (Post.liveUpdate mid) rfl)
          · exact absurd h (not_live_runBranchC env cfg _ (Post.liveUpdate mid) rfl)
        · intro hmem
          exact hA.2.2 (fun h1 =>
            hmem (List.mem_append_left _ (List.mem_append_left _ h1)))

/-- under the conditions of `runBranchA_fires` and with the tenant enabled and
its channel reachable, the whole tick posts the live update and stamps the map -/
theorem tick_fires (env : Env) (cfg : Cfg) (lp : String → Option Nat)
    (mid : String) (t0 : Nat) (m : Match) (pre suf : List Match) (ch : String)
    (hpause : cfg.is_paused = false) (hch : cfg.channel_id = some ch)
    (hch2 : ¬(ch = "")) (hok : env.channelOk ch = true)
    (hguard : branchAGuard cfg = true) (hdue : cfg.next_due_custom.getD 0 ≤ env.now)
    (hcur : getCurrentMatchesSafe env = pre ++ m :: suf)
    (hmid : matchIdOf m = mid)
    (huniq : ∀ m' : Match, m' ∈ pre ∨ m' ∈ suf → matchIdOf m' ≠ mid)
    (hsel : mid ∈ selOf cfg) (hlp : lp mid = some t0)
    (hwin : t0 + (env.pollSeconds - 5) ≤ env.now)
    (hcat : categoryAllowed m (some (filtersOf cfg)) = true)
    (hgen : genderAllowed m (some (gendersOf cfg)) = true)
    (htea : teamAllowed m (teamsOf cfg) = true)
    (hfin : finishedTest (strOf m.status) = false)
    (hliv : relevantLive m = true) :
    Post.liveUpdate mid ∈ (tick env cfg lp).posts
    ∧ (tick env cfg lp).lp mid = some env.now := by
  have hfire := runBranchA_fires env cfg lp mid t0 m pre suf hguard hdue hcur hmid
    huniq hsel hlp hwin hcat hgen htea hfin hliv
  unfold tick
  rw [hpause, hch]
  simp only [Option.getD_some]
  rw [if_neg (by simp), if_neg hch2, if_neg (by rw [hok]; simp)]
  exact ⟨List.mem_append_left _ (List.mem_append_left _ hfire.1), hfire.2⟩

/-- across a whole multi-tenant tick, an identity inside its throttle window
receives no live update from any tenant, and its entry is untouched -/
theorem tickAll_blocked (env : Env) (cfgs : List Cfg) (lp0 : String → Option Nat)
    (mid : String) (t0 : Nat) (hpoll : 5 < env.pollSeconds)
    (hlp : lp0 mid = some t0) (hwin : env.now < t0 + (env.pollSeconds - 5)) :
    Post.liveUpdate mid ∉ (tickAll env cfgs lp0).posts
    ∧ (tickAll env cfgs lp0).lp mid = some t0 := by
  unfold tickAll
  refine foldl_inv
    (P := fun acc : MultiResult => Post.liveUpdate mid ∉ acc.posts ∧ acc.lp mid = some t0)
    _ ?_ _ _ ⟨by simp, hlp⟩
  intro acc cfg h
  have hb := tick_blocked env cfg acc.lp mid t0 hpoll h.2 hwin
  constructor
  · intro hmem
    rcases List.mem_append.mp hmem with h1 | h1
    · exact h.1 h1
    · exact hb.1 h1
  · exact hb.2

/-- across a whole multi-tenant tick, each match identity receives at most one
live update total, and a posted identity's throttle entry reads the current
instant afterwards -/
theorem tickAll_count (env : Env) (cfgs : List Cfg) (lp0 : String → Option Nat)
    (mid : String) (hpoll : 5 < env.pollSeconds) :
    (tickAll env cfgs lp0).posts.count (Post.liveUpdate mid) ≤ 1
    ∧ (Post.liveUpdate mid ∈ (tickAll env cfgs lp0).posts →
        (tickAll env cfgs lp0).lp mid = some env.now) := by
  unfold tickAll
  refine foldl_inv
    (P := fun acc : MultiResult => acc.posts.count (Post.liveUpdate mid) ≤ 1
      ∧ (Post.liveUpdate mid ∈ acc.posts → acc.lp mid = some env.now))
    _ ?_ _ _ ⟨by simp, by simp⟩
  intro acc cfg h
  have htc := tick_count env cfg acc.lp mid hpoll
  by_cases hmem : Post.liveUpdate mid ∈ acc.posts
  · have hb := tick_blocked env cfg acc.lp mid env.now hpoll (h.2 hmem) (by omega)
    constructor
    · rw [List.count_append, List.count_eq_zero.mpr hb.1]
      simpa using h.1
    · intro _
      exact hb.2
  · have hz : acc.posts.count (Post.liveUpdate mid) = 0 := List.count_eq_zero.mpr hmem
    constructor
    · rw [List.count_append, hz]
      simpa using htc.1
    · intro hmm
      rcases List.mem_append.mp hmm with h' | h'
      · exact absurd h' hmem
      · exact htc.2.1 h'

/-- with the tenant enabled and its channel reachable, a tick is the three
branches run in sequence, branch B reading branch A's selection set -/
theorem tick_main (env : Env) (cfg : Cfg) (lp : String → Option Nat) (ch : String)
    (hpause : cfg.is_paused = false) (hch : cfg.channel_id = some ch)
    (hch2 : ¬(ch = "")) (hok : env.channelOk ch = true) :
    tick env cfg lp =
      ⟨(runBranchC env cfg (runBranchB env cfg
          (runBranchA env cfg lp).1.sel (runBranchA env cfg lp).2).1).1,
       (runBranchA env cfg lp).1.lp,
       (runBranchA env cfg lp).1.posts
         ++ (runBranchB env cfg (runBranchA env cfg lp).1.sel (runBranchA env cfg lp).2).2
         ++ (runBranchC env cfg (runBranchB env cfg
              (runBranchA env cfg lp).1.sel (runBranchA env cfg lp).2).1).2⟩ := by
  unfold tick
  rw [hpause, hch]
  simp only [Option.getD_some]
  rw [if_neg (by simp), if_neg hch2, if_neg (by rw [hok]; simp)]

/-- a daily-mode tenant never satisfies the custom/live guard -/
theorem branchAGuard_daily (cfg : Cfg) (h : modeOf cfg = "daily") :
    branchAGuard cfg = false := by
  unfold branchAGuard
  rw [h]
  simp

/-- an empty selection never satisfies the custom/live guard -/
theorem branchAGuard_empty (cfg : Cfg) (h : cfg.selected_match_ids = []) :
    branchAGuard cfg = false := by
  unfold branchAGuard selOf
  rw [h]
  simp [dedupAux]

/-- the fallback-summary branch does nothing when its guard fails -/
theorem runBranchB_skip_guard (env : Env) (cfg0 : Cfg) (sel : List String) (cfgA : Cfg)
    (h : (modeOf cfg0 == "custom" && sel.isEmpty) = false) :
    runBranchB env cfg0 sel cfgA = (cfgA, []) := by
  unfold runBranchB
  rw [h]
  simp

/-- an unset fallback-summary timer is initialized to the next daily slot,
without posting -/
theorem runBranchB_init (env : Env) (cfg0 : Cfg) (sel : List String) (cfgA : Cfg)
    (hmode : modeOf cfg0 = "custom") (hsel : sel = [])
    (hfb : cfgA.fallback_summary = none) :
    runBranchB env cfg0 sel cfgA =
      ({ cfgA with fallback_summary := some (env.hhmmNext (dailyTimeOf cfg0)) }, []) := by
  unfold runBranchB
  rw [hmode, hsel, hfb]
  simp [truthyN]

/-- a pending but not yet due fallback-summary timer leaves the branch idle -/
theorem runBranchB_not_due (env : Env) (cfg0 : Cfg) (sel : List String) (cfgA : Cfg)
    (T : Nat) (hT : cfgA.fallback_summary = some T) (hT0 : 0 < T)
    (hnd : ¬(T ≤ env.now)) :
    runBranchB env cfg0 sel cfgA = (cfgA, []) := by
  unfold runBranchB
  split
  · rw [hT]
    simp [truthyN, Nat.pos_iff_ne_zero.mp hT0, hnd]
  · rfl

/-- a due fallback-summary timer fires: the filtered merge is posted in batches
of eight, tomorrow's internationals follow, and the timer advances by exactly
86400 seconds from its previous value -/
theorem runBranchB_fires (env : Env) (cfg0 : Cfg) (sel : List String) (cfgA : Cfg)
    (T : Nat) (hmode : modeOf cfg0 = "custom") (hsel : sel = [])
    (hT : cfgA.fallback_summary = some T) (hT0 : 0 < T) (hdue : T ≤ env.now) :
    runBranchB env cfg0 sel cfgA =
      ({ cfgA with fallback_summary := some (T + 86400) },
       (if (fallbackMatches env cfg0).isEmpty then [Post.noFallbackMatches]
        else (chunk8 (fallbackMatches env cfg0)).map Post.summaryBatch)
       ++ [Post.tomorrowFixtures (tomorrowInternationalList env cfg0)]) := by
  unfold runBranchB
  rw [hmode, hsel, hT]
  simp [truthyN, Nat.pos_iff_ne_zero.mp hT0, hdue]

/-- the daily branch does nothing when the tenant is not in daily mode -/
theorem runBranchC_skip_guard (env : Env) (cfg0 : Cfg) (cfgB : Cfg)
    (h : (modeOf cfg0 == "daily") = false) :
    runBranchC env cfg0 cfgB = (cfgB, []) := by
  unfold runBranchC
  rw [h]
  simp

/-- an unset daily-summary timer is initialized to the next daily slot -/
theorem runBranchC_init (env : Env) (cfg0 : Cfg) (cfgB : Cfg)
    (hmode : modeOf cfg0 = "daily") (hfb : cfgB.next_summary = none) :
    runBranchC env cfg0 cfgB =
      ({ cfgB with next_summary := some (env.hhmmNext (dailyTimeOf cfg0)) }, []) := by
  unfold runBranchC
  rw [hmode, hfb]
  simp [truthyN]

/-- a pending but not yet due daily-summary timer leaves the branch idle -/
theorem runBranchC_not_due (env : Env) (cfg0 : Cfg) (cfgB : Cfg)
    (T : Nat) (hT : cfgB.next_summary = some T) (hT0 : 0 < T)
    (hnd : ¬(T ≤ env.now)) :
    runBranchC env cfg0 cfgB = (cfgB, []) := by
  unfold runBranchC
  split
  · rw [hT]
    simp [truthyN, Nat.pos_iff_ne_zero.mp hT0, hnd]
  · rfl

/-- a due daily-summary timer fires and advances by exactly 86400 seconds from
its previous value -/
theorem runBranchC_fires (env : Env) (cfg0 : Cfg) (cfgB : Cfg)
    (T : Nat) (hmode : modeOf cfg0 = "daily")
    (hT : cfgB.next_summary = some T) (hT0 : 0 < T) (hdue : T ≤ env.now) :
    runBranchC env cfg0 cfgB =
      ({ cfgB with next_summary := some (T + 86400) },
       (if (dailyMatches env cfg0).isEmpty then [Post.noDailyMatches]
        else (chunk8 (dailyMatches env cfg0)).map Post.summaryBatch)
       ++ [Post.tomorrowFixtures (tomorrowInternationalList env cfg0)]) := by
  unfold runBranchC
  rw [hmode, hT]
  simp [truthyN, Nat.pos_iff_ne_zero.mp hT0, hdue]

/-- the classifier's codomain is exactly the four known categories -/
theorem guessCategory_mem (m : Match) :
    guessCategory m = "international" ∨ guessCategory m = "domestic"
    ∨ guessCategory m = "first-class" ∨ guessCategory m = "franchise" := by
  unfold guessCategory
  split
  · split <;> simp
  · split
    · simp
    · split
      · simp
      · split
        · simp
        · split <;> simp

/-- extracting embed batches distributes over concatenation of post lists -/
theorem summaryContents_append (l1 l2 : List Post) :
    summaryContents (l1 ++ l2) = summaryContents l1 ++ summaryContents l2 := by
  simp [summaryContents, List.filterMap_append]

/-- extracting the embed batches of a pure batch list recovers all slices -/
theorem summaryContents_map (ls : List (List Match)) :
    summaryContents (ls.map Post.summaryBatch) = ls.flatten := by
  induction ls with
  | nil => rfl
  | cons h t ih =>
      unfold summaryContents at ih ⊢
      rw [List.map_cons,
        List.filterMap_cons_some
          (f := fun p : Post => match p with | Post.summaryBatch ms => some ms | _ => none)
          (b := h) rfl,
        List.flatten_cons, ih, List.flatten_cons]

/-- the embed batches of a summary branch's posts carry exactly the filtered
match list -/
theorem summaryContents_branch (ms tomList : List Match) (emptyPost : Post)
    (hp : emptyPost = Post.noFallbackMatches ∨ emptyPost = Post.noDailyMatches) :
    summaryContents ((if ms.isEmpty then [emptyPost]
        else (chunk8 ms).map Post.summaryBatch)
      ++ [Post.tomorrowFixtures tomList]) = ms := by
  rw [summaryContents_append]
  rw [show summaryContents [Post.tomorrowFixtures tomList] = [] from rfl, List.append_nil]
  split
  next hemp =>
    rcases hp with hp | hp <;> subst hp <;>
      simp [summaryContents, List.isEmpty_iff.mp hemp]
  next =>
    rw [summaryContents_map, chunk8_flatten]

/-- a status that matches no live vocabulary but does match the finished
vocabulary is never live, whatever the started flag says -/
theorem relevantLive_false_of (m : Match)
    (h1 : liveStatusTest (norm (strOf m.status)) = false)
    (h2 : finishedTest (norm (strOf m.status)) = true) : relevantLive m = false := by
  unfold relevantLive
  rw [h1, h2]
  simp

/-- every failing fetch outcome makes `fetchJSON` throw -/
theorem fetchJSON_error_of_failure {α : Type} (u : Upstream α) (h : u.isFailure = true) :
    ∃ e, fetchJSON u = Except.error e := by
  cases u with
  | networkError => exact ⟨_, rfl⟩
  | httpError c => exact ⟨_, rfl⟩
  | parseError => exact ⟨_, rfl⟩
  | ok v => simp [Upstream.isFailure] at h

/-! ## Claims -/

/-- C4: for every status text drawn from the finished vocabulary (stumps,
abandoned, no result, completed, "won by", finished), `isFinishedOrStumps`
returns true and `relevantLive` returns false: the two predicates are mutually
exclusive on finished statuses, whatever the upstream started flag says, even
though `relevantLive` is not the negation of `isFinishedOrStumps` in general. -/
theorem finished_vocab_mutually_exclusive (m : Match) (w : String)
    (hw : w ∈ finishedVocab) (hs : m.status = some w) :
    isFinishedOrStumps m = true ∧ relevantLive m = false := by
  fin_cases hw <;>
    exact ⟨by unfold isFinishedOrStumps; rw [hs]; decide,
           relevantLive_false_of m (by rw [hs]; decide) (by rw [hs]; decide)⟩

/-- C4 witness: the vocabulary word "stumps" as a concrete status -/
theorem finished_vocab_mutually_exclusive_witness :
    isFinishedOrStumps sampleStumps = true ∧ relevantLive sampleStumps = false :=
  finished_vocab_mutually_exclusive sampleStumps "stumps" (by decide) rfl

/-- C7: when a match's participant list carries a domestic Indian region name
(or its series a domestic fragment), so that `isIndianDomestic` fires,
`guessCategory` returns domestic or first-class and never international or
franchise; within the flag, the first-class tier fragments and multi-day
match-type text decide first-class, otherwise domestic. -/
theorem indian_domestic_category (m : Match) (h : isIndianDomestic m = true) :
    (guessCategory m = "domestic" ∨ guessCategory m = "first-class")
    ∧ guessCategory m ≠ "international" ∧ guessCategory m ≠ "franchise"
    ∧ guessCategory m
        = (if indianFirstClassSignal m then "first-class" else "domestic") := by
  unfold guessCategory
  rw [h]
  simp only [if_true]
  split <;> rename_i hfc <;> simp [hfc]

/-- C7 witness: the finished Ranji Trophy fixture between two Indian state
sides is regionally domestic and classified first-class -/
theorem indian_domestic_category_witness :
    (guessCategory sampleRanji = "domestic" ∨ guessCategory sampleRanji = "first-class")
    ∧ guessCategory sampleRanji ≠ "international" ∧ guessCategory sampleRanji ≠ "franchise"
    ∧ guessCategory sampleRanji
        = (if indianFirstClassSignal sampleRanji then "first-class" else "domestic") :=
  indian_domestic_category sampleRanji (by decide)

/-- C2 counterexample: the claim says an absent category-filter set never makes
the category check reject every match, but the `cricket-list` pipeline passes
`cfg.filters||[]` — the empty set — to `categoryAllowed`, which then rejects a
current international match that the gender and team checks accept, leaving the
listing empty. -/
theorem absent_filters_reject_all_counterexample :
    categoryAllowed sampleLive (some (cfgNoFilters.filters.getD [])) = false
    ∧ genderAllowed sampleLive cfgNoFilters.gender_filters = true
    ∧ teamAllowed sampleLive (teamsOf cfgNoFilters) = true
    ∧ cricketListMatches cfgNoFilters [sampleLive] = [] := by
  decide

/-- C2 (amended): in the scheduler tick an absent category-filter set is
defaulted to all four known categories before `categoryAllowed` runs, so there
the check accepts every match (fail-open); the fail-closed empty-set default is
specific to the `cricket-list` handler. -/
theorem tick_category_fail_open (m : Match) (cfg : Cfg) (h : cfg.filters = none) :
    categoryAllowed m (some (filtersOf cfg)) = true := by
  unfold filtersOf
  rw [h]
  simp only [Option.getD_none]
  unfold categoryAllowed
  simp only [Option.getD_some]
  rcases guessCategory_mem m with h' | h' | h' | h' <;> rw [h'] <;> decide

/-- C2 witness: the live international match passes the tick's defaulted
category check for a tenant with no persisted filter set -/
theorem tick_category_fail_open_witness :
    categoryAllowed sampleLive (some (filtersOf cfgNoFilters)) = true :=
  tick_category_fail_open sampleLive cfgNoFilters rfl

/-- C9: whenever the upstream fetch fails (network, HTTP or parse error), the
current-matches and date-scoped wrappers used by the scheduled tick degrade to
the empty list, while `fetchScorecard`, used by direct lookups, propagates the
error to its caller. -/
theorem safe_fetch_error_handling (env : Env) (iso : String) (u : Upstream ScorecardResp)
    (hc : env.currentU.isFailure = true) (hm : env.matchesU.isFailure = true)
    (hs : u.isFailure = true) :
    getCurrentMatchesSafe env = [] ∧ getTodayMatchesSafe env = []
    ∧ getMatchesForISOSafe env iso = []
    ∧ ∃ e, fetchScorecard u = Except.error e := by
  obtain ⟨e1, he1⟩ := fetchJSON_error_of_failure env.currentU hc
  obtain ⟨e2, he2⟩ := fetchJSON_error_of_failure env.matchesU hm
  obtain ⟨e3, he3⟩ := fetchJSON_error_of_failure u hs
  refine ⟨?_, ?_, ?_, ⟨e3, ?_⟩⟩
  · unfold getCurrentMatchesSafe
    rw [he1]
  · unfold getTodayMatchesSafe matchesOn
    rw [he2]
    rfl
  · unfold getMatchesForISOSafe matchesOn
    rw [he2]
    rfl
  · unfold fetchScorecard
    rw [he3]
    rfl

/-- C9 witness: a network error, an HTTP 500 and a parse failure on the three
endpoints -/
theorem safe_fetch_error_handling_witness :
    getCurrentMatchesSafe envFail = [] ∧ getTodayMatchesSafe envFail = []
    ∧ getMatchesForISOSafe envFail "2026-10-13" = []
    ∧ ∃ e, fetchScorecard (envFail.scorecardU "m1") = Except.error e :=
  safe_fetch_error_handling envFail "2026-10-13" (envFail.scorecardU "m1") rfl rfl rfl

/-- C3 counterexample: the three branch bodies are not mutually exclusive
within one tick: for a custom-mode tenant whose due custom branch finds its
only tracked match finished and whose stale fallback-summary timer is also due,
branch A posts the final scorecard and empties the selection, after which
branch B fires too in the same tick — the posts contain both custom/live-style
and summary-style messages. -/
theorem branch_bodies_not_exclusive_counterexample :
    ((tick envRanjiDone cfgRanjiStale lpNone).posts.any isCustomLivePost) = true
    ∧ ((tick envRanjiDone cfgRanjiStale lpNone).posts.any isSummaryStylePost) = true := by
  decide

/-- C3 (amended): on the configuration as it stands when the tick begins, and
for the modes the data model admits (custom or daily), exactly one of the three
branch guards holds; the branch bodies themselves are not mutually exclusive,
because branch A can empty the selection and let branch B run in the same tick. -/
theorem branch_guards_exactly_one (cfg : Cfg)
    (h : modeOf cfg = "custom" ∨ modeOf cfg = "daily") :
    (branchAGuard cfg = true ∧ branchBGuard cfg = false ∧ branchCGuard cfg = false)
    ∨ (branchAGuard cfg = false ∧ branchBGuard cfg = true ∧ branchCGuard cfg = false)
    ∨ (branchAGuard cfg = false ∧ branchBGuard cfg = false ∧ branchCGuard cfg = true) := by
  unfold branchAGuard branchBGuard branchCGuard
  rcases h with h | h <;> rw [h]
  · cases hsel : (selOf cfg).isEmpty
    · left
      simp [hsel]
    · right
      left
      simp [hsel]
  · right
    right
    simp

/-- C3 witness: a custom-mode tenant with a non-empty selection satisfies
exactly the custom/live guard -/
theorem branch_guards_exactly_one_witness :
    (branchAGuard cfgRanjiStale = true ∧ branchBGuard cfgRanjiStale = false
      ∧ branchCGuard cfgRanjiStale = false)
    ∨ (branchAGuard cfgRanjiStale = false ∧ branchBGuard cfgRanjiStale = true
      ∧ branchCGuard cfgRanjiStale = false)
    ∨ (branchAGuard cfgRanjiStale = false ∧ branchBGuard cfgRanjiStale = false
      ∧ branchCGuard cfgRanjiStale = true) :=
  branch_guards_exactly_one cfgRanjiStale (Or.inl (by decide))

/-- C5: a due daily-cadence timer that fired with value T is rewritten to
exactly T + 86400, not to the (possibly late) tick instant plus a day; this
holds both for the daily-summary timer and for the custom fallback-summary
timer. -/
theorem daily_cadence_stable (env : Env) (cfgD cfgC : Cfg)
    (lp1 lp2 : String → Option Nat) (TD TC : Nat) (chD chC : String)
    (hDpause : cfgD.is_paused = false) (hDch : cfgD.channel_id = some chD)
    (hDch2 : ¬(chD = "")) (hDok : env.channelOk chD = true)
    (hDmode : modeOf cfgD = "daily") (hDT : cfgD.next_summary = some TD)
    (hDT0 : 0 < TD) (hDdue : TD ≤ env.now)
    (hCpause : cfgC.is_paused = false) (hCch : cfgC.channel_id = some chC)
    (hCch2 : ¬(chC = "")) (hCok : env.channelOk chC = true)
    (hCmode : modeOf cfgC = "custom") (hCsel : cfgC.selected_match_ids = [])
    (hCT : cfgC.fallback_summary = some TC) (hCT0 : 0 < TC) (hCdue : TC ≤ env.now) :
    (tick env cfgD lp1).cfg.next_summary = some (TD + 86400)
    ∧ (tick env cfgC lp2).cfg.fallback_summary = some (TC + 86400) := by
  constructor
  · rw [tick_main env cfgD lp1 chD hDpause hDch hDch2 hDok]
    rw [runBranchA_not_entered env cfgD lp1 (Or.inl (branchAGuard_daily cfgD hDmode))]
    dsimp only
    rw [runBranchB_skip_guard env cfgD _ _ (by rw [hDmode]; simp)]
    dsimp only
    rw [runBranchC_fires env cfgD cfgD TD hDmode hDT hDT0 hDdue]
  · rw [tick_main env cfgC lp2 chC hCpause hCch hCch2 hCok]
    rw [runBranchA_not_entered env cfgC lp2 (Or.inl (branchAGuard_empty cfgC hCsel))]
    dsimp only
    rw [runBranchB_fires env cfgC (selOf cfgC) cfgC TC hCmode
      (by unfold selOf; rw [hCsel]; rfl) hCT hCT0 hCdue]
    dsimp only
    rw [runBranchC_skip_guard env cfgC _ (by rw [hCmode]; decide)]

/-- C5 witness: both timers firing at 1000000 with previous value 900000 are
rewritten to 986400 -/
theorem daily_cadence_stable_witness :
    (tick envSummary cfgDailyDue lpNone).cfg.next_summary = some (900000 + 86400)
    ∧ (tick envSummary cfgFallbackDue lpNone).cfg.fallback_summary
        = some (900000 + 86400) :=
  daily_cadence_stable envSummary cfgDailyDue cfgFallbackDue lpNone lpNone
    900000 900000 "ch1" "ch1"
    rfl rfl (by decide) rfl (by decide) rfl (by decide) (by decide)
    rfl rfl (by decide) rfl (by decide) rfl rfl (by decide) (by decide)

/-- C1 counterexample: "Match Tied" is not a finished status for the code:
`FINISHED_RE` does not match it, so the due tick treats the tied tracked match
as live (its started flag is set) — it posts a live update instead of a final
scorecard and keeps the identity in `selectedMatchIds`. -/
theorem tied_status_not_finished_counterexample :
    finishedTest "Match Tied" = false
    ∧ (tick envTied cfgTied lpNone).posts = [Post.liveUpdate "m1"]
    ∧ (tick envTied cfgTied lpNone).cfg.selected_match_ids = ["m1"] := by
  decide

/-- a custom-mode tenant with nothing selected and a pending, not yet due
fallback-summary timer posts nothing on a tick -/
theorem tick_custom_idle (env : Env) (cfg : Cfg) (lp : String → Option Nat) (ch : String)
    (hpause : cfg.is_paused = false) (hch : cfg.channel_id = some ch)
    (hch2 : ¬(ch = "")) (hok : env.channelOk ch = true)
    (hmode : modeOf cfg = "custom") (hsel : cfg.selected_match_ids = [])
    (T : Nat) (hT : cfg.fallback_summary = some T) (hT0 : 0 < T)
    (hnd : ¬(T ≤ env.now)) : (tick env cfg lp).posts = [] := by
  rw [tick_main env cfg lp ch hpause hch hch2 hok]
  rw [runBranchA_not_entered env cfg lp (Or.inl (branchAGuard_empty cfg hsel))]
  dsimp only
  rw [runBranchB_not_due env cfg _ cfg T hT hT0 hnd]
  dsimp only
  rw [runBranchC_skip_guard env cfg _ (by rw [hmode]; decide)]
  rfl

/-- C1 (amended): for a custom-mode tenant tracking one match identity whose
upstream status matches the code's finished vocabulary (which excludes "Match
Tied"), the next due tick posts the final scorecard (its fetch succeeding) and
the tracking-stopped notice, removes the identity from the persisted selection,
and a subsequent tick against the same upstream data posts nothing at all. -/
theorem final_scorecard_on_finished_status (env : Env) (cfg : Cfg)
    (lp : String → Option Nat) (mid : String) (m : Match) (ch : String)
    (sc : ScorecardResp)
    (hpause : cfg.is_paused = false) (hch : cfg.channel_id = some ch)
    (hch2 : ¬(ch = "")) (hok : env.channelOk ch = true)
    (hmode : modeOf cfg = "custom") (hsel : cfg.selected_match_ids = [mid])
    (hdue : cfg.next_due_custom.getD 0 ≤ env.now)
    (hcur : env.currentU = Upstream.ok [m])
    (hmid : matchIdOf m = mid)
    (hcat : categoryAllowed m (some (filtersOf cfg)) = true)
    (hgen : genderAllowed m (some (gendersOf cfg)) = true)
    (htea : teamAllowed m (teamsOf cfg) = true)
    (hfin : finishedTest (strOf m.status) = true)
    (hsc : env.scorecardU mid = Upstream.ok sc)
    (hfb : cfg.fallback_summary = none)
    (hnext : env.now < env.hhmmNext (dailyTimeOf cfg)) :
    (tick env cfg lp).posts = [Post.finalScorecard mid, Post.stoppedTracking mid]
    ∧ (tick env cfg lp).cfg.selected_match_ids = []
    ∧ (tick env (tick env cfg lp).cfg (tick env cfg lp).lp).posts = [] := by
  have hcs : getCurrentMatchesSafe env = [m] := by
    unfold getCurrentMatchesSafe
    rw [hcur]
    rfl
  have hselOf : selOf cfg = [mid] := by
    unfold selOf
    rw [hsel]
    rfl
  have hguard : branchAGuard cfg = true := by
    unfold branchAGuard
    rw [hmode, hselOf]
    simp
  have hproc : procMatch env (filtersOf cfg) (gendersOf cfg) (teamsOf cfg)
      ⟨[mid], lp, false, []⟩ m
      = ⟨[], lp, false, [Post.finalScorecard mid, Post.stoppedTracking mid]⟩ := by
    unfold procMatch
    rw [hmid, hcat, hgen, htea, hfin, hsc]
    simp [fetchScorecard, fetchJSON, Except.map]
  have hA : runBranchA env cfg lp
      = (⟨[], lp, false, [Post.finalScorecard mid, Post.stoppedTracking mid]⟩,
         { cfg with selected_match_ids := [],
                    next_due_custom := some (env.now + IDLE_BACKOFF_SECONDS) }) := by
    unfold runBranchA
    rw [hguard, if_pos rfl, if_pos hdue, hcs, hselOf, List.foldl_cons, List.foldl_nil, hproc]
    simp
  have htick1 : tick env cfg lp
      = TickResult.mk
          ({ cfg with selected_match_ids := [],
                      next_due_custom := some (env.now + IDLE_BACKOFF_SECONDS),
                      fallback_summary := some (env.hhmmNext (dailyTimeOf cfg)) })
          lp [Post.finalScorecard mid, Post.stoppedTracking mid] := by
    rw [tick_main env cfg lp ch hpause hch hch2 hok, hA]
    dsimp only
    rw [runBranchB_init env cfg []
      ({ cfg with selected_match_ids := [],
                  next_due_custom := some (env.now + IDLE_BACKOFF_SECONDS) })
      hmode rfl hfb]
    dsimp only
    rw [runBranchC_skip_guard env cfg _ (by rw [hmode]; decide)]
    rfl
  refine ⟨by rw [htick1], by rw [htick1], ?_⟩
  exact tick_custom_idle env _ _ ch
    (by rw [htick1]; exact hpause) (by rw [htick1]; exact hch) hch2 hok
    (by rw [htick1]; exact hmode)
    (by rw [htick1]) (env.hhmmNext (dailyTimeOf cfg)) (by rw [htick1])
    (Nat.lt_of_le_of_lt (Nat.zero_le _) hnext) (by omega)

/-- C1 witness: the finished Ranji match, tracked by a custom-mode tenant with
no fallback timer, at the due instant -/
theorem final_scorecard_on_finished_status_witness :
    (tick envRanjiDone cfgRanjiTracking lpNone).posts
      = [Post.finalScorecard "r1", Post.stoppedTracking "r1"]
    ∧ (tick envRanjiDone cfgRanjiTracking lpNone).cfg.selected_match_ids = []
    ∧ (tick envRanjiDone (tick envRanjiDone cfgRanjiTracking lpNone).cfg
        (tick envRanjiDone cfgRanjiTracking lpNone).lp).posts = [] :=
  final_scorecard_on_finished_status envRanjiDone cfgRanjiTracking lpNone "r1"
    sampleRanji "ch1" ⟨some ⟨"scorecard"⟩⟩
    rfl rfl (by decide) rfl (by decide) rfl (by decide) rfl rfl
    (by decide) (by decide) (by decide) (by decide) rfl rfl (by decide)

/-- C6: with pollIntervalSeconds 600, a live selected match last posted at t0
receives no second live update from a tick that runs before t0+595; and a tick
at or after t0+595 on which the match — occurring once upstream — is still live
(and not finished, since the finished path preempts the live path), passes the
tenant's filters, and finds the custom branch due, posts the live update and
sets the match's throttle entry to the tick instant. -/
theorem custom_live_throttle (env : Env) (cfg : Cfg) (lp : String → Option Nat)
    (mid : String) (t0 : Nat) (m : Match) (pre suf : List Match) (ch : String)
    (hpoll : env.pollSeconds = 600) (hlp : lp mid = some t0) :
    (env.now < t0 + 595 → Post.liveUpdate mid ∉ (tick env cfg lp).posts)
    ∧ ((t0 + 595 ≤ env.now
        ∧ cfg.is_paused = false ∧ cfg.channel_id = some ch ∧ ¬(ch = "")
        ∧ env.channelOk ch = true
        ∧ branchAGuard cfg = true ∧ cfg.next_due_custom.getD 0 ≤ env.now
        ∧ getCurrentMatchesSafe env = pre ++ m :: suf ∧ matchIdOf m = mid
        ∧ (∀ m' : Match, m' ∈ pre ∨ m' ∈ suf → matchIdOf m' ≠ mid)
        ∧ mid ∈ selOf cfg
        ∧ categoryAllowed m (some (filtersOf cfg)) = true
        ∧ genderAllowed m (some (gendersOf cfg)) = true
        ∧ teamAllowed m (teamsOf cfg) = true
        ∧ finishedTest (strOf m.status) = false ∧ relevantLive m = true)
      → Post.liveUpdate mid ∈ (tick env cfg lp).posts
        ∧ (tick env cfg lp).lp mid = some env.now) := by
  constructor
  · intro hwin
    exact (tick_blocked env cfg lp mid t0 (by omega) hlp (by omega)).1
  · rintro ⟨hw1, hpause, hch, hch2, hok, hguard, hdue, hcur, hmid, huniq, hsel,
      hcat, hgen, htea, hfin, hliv⟩
    exact tick_fires env cfg lp mid t0 m pre suf ch hpause hch hch2 hok hguard
      hdue hcur hmid huniq hsel hlp (by omega) hcat hgen htea hfin hliv

/-- C6 witness: the live match last posted at 100 is posted again by the tick
at 695 = 100 + 595, and its throttle entry becomes 695 -/
theorem custom_live_throttle_witness :
    Post.liveUpdate "m2" ∈ (tick envThrottle cfgLiveTracking lpAt100).posts
    ∧ (tick envThrottle cfgLiveTracking lpAt100).lp "m2" = some envThrottle.now :=
  (custom_live_throttle envThrottle cfgLiveTracking lpAt100 "m2" 100 sampleLive
      [] [] "ch1" rfl rfl).2
    ⟨by decide, rfl, rfl, by decide, rfl, by decide, by decide, by decide, rfl,
     by simp, by decide, by decide, by decide, by decide, by decide, by decide⟩

/-- C8: when the custom fallback-summary branch fires, the matches carried by
the tick's embed batches are exactly the merge of today's scheduled matches and
the current matches — current data winning identity collisions — filtered by
the hard-wired restriction to international or (domestic/first-class and
regionally Indian-domestic) matches, the scheduled-today-or-live test, and the
tenant's gender and team filters; the tenant's own category filters do not
appear in the selection. -/
theorem fallback_summary_selection (env : Env) (cfg : Cfg) (lp : String → Option Nat)
    (ch : String) (T : Nat)
    (hpause : cfg.is_paused = false) (hch : cfg.channel_id = some ch)
    (hch2 : ¬(ch = "")) (hok : env.channelOk ch = true)
    (hmode : modeOf cfg = "custom") (hsel : cfg.selected_match_ids = [])
    (hT : cfg.fallback_summary = some T) (hT0 : 0 < T) (hdue : T ≤ env.now) :
    summaryContents (tick env cfg lp).posts
      = (mergeById (getTodayMatchesSafe env) (getCurrentMatchesSafe env)).filter
          (branchBPred env cfg) := by
  rw [tick_main env cfg lp ch hpause hch hch2 hok]
  rw [runBranchA_not_entered env cfg lp (Or.inl (branchAGuard_empty cfg hsel))]
  dsimp only
  rw [runBranchB_fires env cfg (selOf cfg) cfg T hmode
    (by unfold selOf; rw [hsel]; rfl) hT hT0 hdue]
  dsimp only
  rw [runBranchC_skip_guard env cfg _ (by rw [hmode]; decide)]
  dsimp only
  rw [List.nil_append, List.append_nil]
  exact summaryContents_branch (fallbackMatches env cfg) _ _ (Or.inl rfl)

/-- C8 witness: the due fallback summary over a scheduled Ranji match and a
current live international carries exactly the filtered merge -/
theorem fallback_summary_selection_witness :
    summaryContents (tick envSummary cfgFallbackDue lpNone).posts
      = (mergeById (getTodayMatchesSafe envSummary)
          (getCurrentMatchesSafe envSummary)).filter
          (branchBPred envSummary cfgFallbackDue) :=
  fallback_summary_selection envSummary cfgFallbackDue lpNone "ch1" 900000
    rfl rfl (by decide) rfl (by decide) rfl rfl (by decide) (by decide)

/-- C10: the live-post throttle map is keyed by match identity alone and shared
across all tenants: on a multi-tenant tick, an identity whose recorded last
post is within pollIntervalSeconds − 5 of now receives no live update from any
tenant; across all tenants at most one live update per identity is emitted;
and when one is emitted the shared map records the tick instant for that
identity, which is what blocks every other tenant tracking the same match. -/
theorem shared_throttle_across_tenants (env : Env) (cfgs : List Cfg)
    (lp0 : String → Option Nat) (mid : String) (t0 : Nat)
    (hpoll : 5 < env.pollSeconds) :
    (lp0 mid = some t0 → env.now < t0 + (env.pollSeconds - 5) →
      Post.liveUpdate mid ∉ (tickAll env cfgs lp0).posts)
    ∧ (tickAll env cfgs lp0).posts.count (Post.liveUpdate mid) ≤ 1
    ∧ (Post.liveUpdate mid ∈ (tickAll env cfgs lp0).posts →
      (tickAll env cfgs lp0).lp mid = some env.now) := by
  refine ⟨fun h1 h2 => (tickAll_blocked env cfgs lp0 mid t0 hpoll h1 h2).1,
    (tickAll_count env cfgs lp0 mid hpoll).1,
    (tickAll_count env cfgs lp0 mid hpoll).2⟩

/-- C10 witness: two tenants both tracking the live match on one shared
throttle map produce at most one live update for it in a single tick -/
theorem shared_throttle_across_tenants_witness :
    (tickAll envThrottle [cfgLiveTracking, cfgLiveTracking2] lpNone).posts.count
      (Post.liveUpdate "m2") ≤ 1 :=
  (shared_throttle_across_tenants envThrottle [cfgLiveTracking, cfgLiveTracking2]
    lpNone "m2" 0 (by decide)).2.1

end CricketBot
